import Mathlib

/-!
Shallow embedding of the myailments/mirrorstage repository: three Flask
services (a deepseek chat-completion server, a latentsync media-sync
server, a zonos text-to-speech server).  Pure request-handling logic is
translated into Lean functions; the thread-pool / semaphore concurrency of
the latentsync server is embedded as a small-step transition system; the
timeout and cleanup timing behaviour is embedded as explicit event times
computed from the job duration and the deadline.
-/

/-- JSON values, as produced by Flask's `jsonify` and consumed by
`request.get_json()`.  Numbers are modelled as rationals (the sources use
only integer and simple decimal literals such as `0.7`). -/
inductive Json where
  | null : Json
  | bool : Bool → Json
  | num : Rat → Json
  | str : String → Json
  | arr : List Json → Json
  | obj : List (String × Json) → Json

/-- Python truthiness test (`if not x`) on a JSON value: `None`, `False`,
`0`, `""`, `[]` and `{}` are falsy. -/
def Json.falsy : Json → Bool
  | .null => true
  | .bool b => !b
  | .num q => q = 0
  | .str s => s = ""
  | .arr xs => xs.isEmpty
  | .obj fs => fs.isEmpty

/-- Model of `dict.get(key, default)` on a JSON object (first binding wins; a
Python dict cannot hold duplicate keys). -/
def Json.getD (j : Json) (key : String) (default : Json) : Json :=
  match j with
  | .obj fs =>
      match fs.lookup key with
      | some v => v
      | none => default
  | _ => default

/-- Body of an HTTP response: a JSON document (`jsonify`) or a binary
payload streamed from a file (`send_file`), modelled as its bytes. -/
inductive RespBody where
  | json : Json → RespBody
  | file : List Nat → RespBody

/-- The spec's error envelope check: the body is a JSON object whose
"error" key holds an object with both a "message" string and a "type"
string. -/
def isErrorEnvelope : Json → Bool
  | .obj fs =>
      match fs.lookup "error" with
      | some (.obj efs) =>
          (match efs.lookup "message" with
            | some (.str _) => true
            | _ => false) &&
          (match efs.lookup "type" with
            | some (.str _) => true
            | _ => false)
      | _ => false
  | _ => false

/-- Weaker shape: a JSON object whose "error" key holds an object with a
"message" string (a "type" string may or may not be present). -/
def hasErrorMessage : Json → Bool
  | .obj fs =>
      match fs.lookup "error" with
      | some (.obj efs) =>
          match efs.lookup "message" with
          | some (.str _) => true
          | _ => false
      | _ => false
  | _ => false

/-- Shape of the latentsync and zonos failure bodies: a JSON object whose
"error" key holds a plain string. -/
def isStringErrorBody : RespBody → Bool
  | .json (.obj fs) =>
      match fs.lookup "error" with
      | some (.str _) => true
      | _ => false
  | _ => false

/-- Python `str.strip()`: the string with leading and trailing whitespace
removed. -/
def pyStrip (s : String) : String :=
  String.mk
    (((s.data.dropWhile Char.isWhitespace).reverse.dropWhile
      Char.isWhitespace).reverse)

namespace Deepseek

/-- The constant `MODEL_ID` from src/reference/deepseek/server.py. -/
def MODEL_ID : String := "deepseek-ai/DeepSeek-V3-0324"

/-- The constant `DEFAULT_MAX_TOKENS` from src/reference/deepseek/server.py. -/
def DEFAULT_MAX_TOKENS : Rat := 150

/-- The readiness flag `engine_ready` is a `threading.Event`: it is set
exactly once by `init_engine` and never cleared.  Observed at time `t`,
it is set iff the initialization finished at some `fireTime ≤ t`. -/
def engine_ready_at (fireTime t : Nat) : Bool := fireTime ≤ t

/-- The handler `health_check` (src/reference/deepseek/server.py lines 56-61):
returns 200/"healthy" when `engine_ready.is_set()` and
503/"initializing" otherwise.  Result is (HTTP status, JSON body). -/
def health_check (ready : Bool) : Nat × Json :=
  if ready then
    (200, .obj [("status", .str "healthy"), ("model", .str MODEL_ID)])
  else
    (503, .obj [("status", .str "initializing"), ("model", .str MODEL_ID)])

/-- The `/health` answer observed at time `t` when the engine becomes ready at
`fireTime`. -/
def health_at (fireTime t : Nat) : Nat × Json :=
  health_check (engine_ready_at fireTime t)

/-- Outcome of one `chat_completions` call: HTTP status, JSON body, how
many vLLM generation requests were issued (`engine.generate`, the job
creation of this service), how many admission permits were taken, and the
`SamplingParams`-plus-model quadruple actually constructed (when the
handler got that far). -/
structure Outcome where
  status : Nat
  body : Json
  jobsCreated : Nat
  permitsAcquired : Nat
  params : Option (Json × Json × Json × Json)

/-- The full error envelope `{"error": {"message": m, "type": ty}}`. -/
def envelope (m ty : String) : Json :=
  .obj [("error", .obj [("message", .str m), ("type", .str ty)])]

/-- An error object carrying only a message:
`{"error": {"message": m}}`. -/
def messageOnly (m : String) : Json :=
  .obj [("error", .obj [("message", .str m)])]

/-- The handler `chat_completions` (src/reference/deepseek/server.py lines 79-127).
`ready` is `engine_ready.is_set()`; `body` is the result of
`request.get_json(silent=True)` (`none` = unparsable JSON); `gen` is the
outcome of `generate_completion` (the opaque model call): either a
response JSON or a raised exception message.  The handler checks
readiness first, then parses, then validates `messages`, then extracts
the sampling parameters with defaults, and only then issues the
generation request; any exception from generation is caught and rendered
as a 500 with the full error envelope. -/
def chat_completions (ready : Bool) (body : Option Json)
    (gen : Except String Json) : Outcome :=
  if !ready then
    { status := 503
      body := envelope
        "Model is still initializing, please try again in a few minutes"
        "server_error"
      jobsCreated := 0, permitsAcquired := 0, params := none }
  else
    match body with
    | none =>
        { status := 400, body := messageOnly "Invalid JSON"
          jobsCreated := 0, permitsAcquired := 0, params := none }
    | some d =>
        if d.falsy then
          { status := 400, body := messageOnly "Invalid JSON"
            jobsCreated := 0, permitsAcquired := 0, params := none }
        else
          let messages := d.getD "messages" (.arr [])
          if messages.falsy then
            { status := 400, body := messageOnly "No messages provided"
              jobsCreated := 0, permitsAcquired := 0, params := none }
          else
            let model := d.getD "model" (.str "deepseek-v3")
            let max_tokens := d.getD "max_tokens" (.num DEFAULT_MAX_TOKENS)
            let temperature := d.getD "temperature" (.num (7/10))
            let top_p := d.getD "top_p" (.num 1)
            match gen with
            | .ok resp =>
                { status := 200, body := resp
                  jobsCreated := 1, permitsAcquired := 1
                  params := some (model, max_tokens, temperature, top_p) }
            | .error e =>
                { status := 500, body := envelope e "server_error"
                  jobsCreated := 1, permitsAcquired := 1
                  params := some (model, max_tokens, temperature, top_p) }

end Deepseek

namespace Latentsync

/-- The number of permits of `gpu_semaphore = threading.Semaphore(2)`
(src/reference/latentsync/server.py line 30). -/
def gpu_semaphore_permits : Nat := 2

/-- The deadline of `future.result(timeout=600)` (line 115), in seconds. -/
def TIMEOUT : Nat := 600

/-- Where one `process_video` job stands relative to its
`with gpu_semaphore` block: not yet entered, holding the permit inside
the heavy-operation body, or exited — `finished true` when the body
returned normally, `finished false` when it raised (e.g. a nonzero
inference return code); in both cases the `with` statement has released
the permit on the way out. -/
inductive JobPhase where
  | notStarted : JobPhase
  | holding : JobPhase
  | finished : Bool → JobPhase
deriving DecidableEq

/-- One `process_video` call together with the number of semaphore
acquisitions and releases it has performed so far. -/
structure JobRec where
  phase : JobPhase
  acq : Nat
  rel : Nat
deriving DecidableEq

/-- A configuration of the latentsync worker pool: the free permits left
in `gpu_semaphore` plus the per-job records. -/
structure Config where
  permits : Nat
  jobs : List JobRec
deriving DecidableEq

/-- Initial configuration: the semaphore holds its full two permits and
none of the `n` submitted jobs has entered its `with` block. -/
def initConfig (n : Nat) : Config :=
  { permits := gpu_semaphore_permits
    jobs := List.replicate n ⟨.notStarted, 0, 0⟩ }

/-- One scheduler step of the latentsync worker pool.  `acquire` is a job
entering `with gpu_semaphore:` — possible only when a free permit exists,
and it consumes one.  `finish` is the job body exiting, normally
(`ok = true`) or by raising (`ok = false`); the `with` statement releases
the permit in either case, exactly once. -/
inductive Step : Config → Config → Prop where
  | acquire (p : Nat) (js : List JobRec) (i : Nat) (r : JobRec)
      (hget : js[i]? = some r) (hphase : r.phase = .notStarted) :
      Step ⟨p + 1, js⟩ ⟨p, js.set i ⟨.holding, r.acq + 1, r.rel⟩⟩
  | finish (p : Nat) (js : List JobRec) (i : Nat) (r : JobRec) (ok : Bool)
      (hget : js[i]? = some r) (hphase : r.phase = .holding) :
      Step ⟨p, js⟩ ⟨p + 1, js.set i ⟨.finished ok, r.acq, r.rel + 1⟩⟩

/-- Configurations reachable from an initial configuration by scheduler
steps. -/
inductive Reachable : Config → Prop where
  | init (n : Nat) : Reachable (initConfig n)
  | step {c c' : Config} : Reachable c → Step c c' → Reachable c'

/-- Number of jobs currently inside the heavy-operation body (past permit
acquisition, before release). -/
def holdingCount (c : Config) : Nat :=
  c.jobs.countP (fun r => r.phase == .holding)

/-- Per-job accounting invariant: acquisitions and releases are determined
by the job's position relative to its `with` block. -/
def goodRec (r : JobRec) : Prop :=
  (r.phase = .notStarted → r.acq = 0 ∧ r.rel = 0) ∧
  (r.phase = .holding → r.acq = 1 ∧ r.rel = 0) ∧
  (∀ ok, r.phase = .finished ok → r.acq = 1 ∧ r.rel = 1)

/-- Pool invariant: free permits plus jobs inside the body always total
the semaphore's two permits, and every job's accounting is consistent. -/
def Inv (c : Config) : Prop :=
  c.permits + holdingCount c = gpu_semaphore_permits ∧
  ∀ r ∈ c.jobs, goodRec r

/-- Message `str(e)` of the `FileNotFoundError` raised when `send_file` opens the
output file after the done callback has already removed `temp_dir`. -/
def fileGoneMessage : String := "No such file or directory"

/-- Timing and outcome trace of one submitted media-sync job and its
handler (src/reference/latentsync/server.py lines 102-130).  `d` is the
job's natural duration, `outcome` what `process_video` does (returns or
raises), `output` the bytes the inference writes to `output_path`, and
`cleanupBeforeSend` which side of the race the scheduler takes between
the future's done callback (`cleanup_callback`, which `rmtree`s
`temp_dir` at completion) and the handler's `send_file` — both orders are
possible because the callback runs on the worker thread right after the
result is set while the handler thread wakes concurrently.  The handler
never calls `future.cancel()`, so on timeout the job keeps running. -/
structure SyncFlow where
  jobEnd : Nat
  jobOutcome : Except String Unit
  jobAborted : Bool
  cleanupCalls : Nat
  cleanupTime : Nat
  permitHeldUntil : Nat
  respTime : Nat
  resp : Nat × RespBody

/-- The trace of one submitted job, computed from the source's structure:
`future.result(timeout=600)` returns at `d` when `d ≤ 600` and raises the
timeout error at `600` otherwise (answered 504); a captured exception is
re-raised into the handler's catch-all (answered 500 with the message);
on success `send_file` returns the output bytes unless the done
callback's `rmtree` won the race, in which case opening the file raises
and the catch-all answers 500.  `cleanup_callback` runs exactly once, at
future completion, on every path; the permit is held until the body
exits at `d`. -/
def sync_flow (d : Nat) (outcome : Except String Unit) (output : List Nat)
    (cleanupBeforeSend : Bool) : SyncFlow :=
  { jobEnd := d
    jobOutcome := outcome
    jobAborted := false
    cleanupCalls := 1
    cleanupTime := d
    permitHeldUntil := d
    respTime := if d ≤ TIMEOUT then d else TIMEOUT
    resp :=
      if d ≤ TIMEOUT then
        match outcome with
        | .error e => (500, .json (.obj [("error", .str e)]))
        | .ok _ =>
            if cleanupBeforeSend then
              (500, .json (.obj [("error", .str fileGoneMessage)]))
            else
              (200, .file output)
      else
        (504, .json (.obj [("error", .str "Processing timeout")])) }

/-- The handler `sync_video_audio` (lines 77-130): requests missing either file part
are rejected 400 before anything is submitted; otherwise the response is
the submitted job's, per `sync_flow`. -/
def sync_video_audio (hasVideo hasAudio : Bool) (d : Nat)
    (outcome : Except String Unit) (output : List Nat)
    (cleanupBeforeSend : Bool) : Nat × RespBody :=
  if !(hasVideo && hasAudio) then
    (400, .json (.obj
      [("error", .str "Both video and audio files are required")]))
  else
    (sync_flow d outcome output cleanupBeforeSend).resp

/-- The latentsync `health_check` (lines 72-75): unconditionally 200/"healthy" — this
service has no initialization phase and no readiness flag. -/
def health_check : Nat × Json :=
  (200, .obj [("status", .str "healthy")])

end Latentsync

namespace Zonos

/-- Outcome of one `text_to_speech` call
(src/reference/zonos-tts/server.py lines 34-64).  `tempFilesCreated`
counts calls of `tempfile.NamedTemporaryFile(suffix=".wav",
delete=False)`; `tempFilesReleased` counts deletions of that file — the
handler contains no `os.unlink`, no cleanup callback and no `finally`,
and `delete=False` disables automatic deletion, so no path ever deletes
it. -/
structure Outcome where
  status : Nat
  body : RespBody
  tempFilesCreated : Nat
  tempFilesReleased : Nat

/-- The handler `text_to_speech`: extracts `text` with default `""`, rejects blank
text 400, then creates the temporary output file and synthesizes; a
raised error is caught and answered 500 with the message; on success the
wav bytes are returned.  A non-object body or a non-string `text` raises
an `AttributeError` inside the `try` (`data.get` / `text.strip` on the
wrong type), answered 500. -/
def text_to_speech (body : Json) (gen : Except String (List Nat)) :
    Outcome :=
  match body with
  | .obj fs =>
      match (match fs.lookup "text" with
             | some v => v
             | none => .str "") with
      | .str s =>
          if pyStrip s = "" then
            { status := 400
              body := .json (.obj [("error", .str "Empty text provided")])
              tempFilesCreated := 0, tempFilesReleased := 0 }
          else
            match gen with
            | .ok wav =>
                { status := 200, body := .file wav
                  tempFilesCreated := 1, tempFilesReleased := 0 }
            | .error e =>
                { status := 500
                  body := .json (.obj [("error", .str e)])
                  tempFilesCreated := 1, tempFilesReleased := 0 }
      | _ =>
          { status := 500
            body := .json (.obj [("error", .str "AttributeError")])
            tempFilesCreated := 0, tempFilesReleased := 0 }
  | _ =>
      { status := 500
        body := .json (.obj [("error", .str "AttributeError")])
        tempFilesCreated := 0, tempFilesReleased := 0 }

end Zonos

/-! ### Helper lemmas -/

/-- Setting an index changes `countP` by the difference between the old
and the new element's contribution. -/
theorem countP_set_of_getElem (p : Latentsync.JobRec → Bool) :
    ∀ (l : List Latentsync.JobRec) (i : Nat) (a b : Latentsync.JobRec),
      l[i]? = some a →
      (l.set i b).countP p + (if p a then 1 else 0) =
        l.countP p + (if p b then 1 else 0) := by
  intro l
  induction l with
  | nil => intro i a b h; simp at h
  | cons x xs ih =>
    intro i a b h
    cases i with
    | zero =>
      simp only [List.getElem?_cons_zero, Option.some.injEq] at h
      subst h
      simp only [List.set_cons_zero, List.countP_cons]
      omega
    | succ j =>
      simp only [List.getElem?_cons_succ] at h
      simp only [List.set_cons_succ, List.countP_cons]
      have := ih j a b h
      omega

/-- The pool invariant holds initially. -/
theorem inv_init (n : Nat) : Latentsync.Inv (Latentsync.initConfig n) := by
  constructor
  · simp [Latentsync.initConfig, Latentsync.holdingCount,
      Latentsync.gpu_semaphore_permits, List.countP_replicate]
  · intro r hr
    have := List.eq_of_mem_replicate hr
    subst this
    refine ⟨fun _ => ⟨rfl, rfl⟩, fun h => ?_, fun ok h => ?_⟩ <;> simp at h

/-- Every scheduler step preserves the pool invariant. -/
theorem inv_step {c c' : Latentsync.Config} (hc : Latentsync.Inv c)
    (hs : Latentsync.Step c c') : Latentsync.Inv c' := by
  obtain ⟨hcount, hrecs⟩ := hc
  cases hs with
  | acquire p js i r hget hphase =>
    have hgood := hrecs r (List.getElem?_mem hget)
    have hzero : r.acq = 0 ∧ r.rel = 0 := hgood.1 hphase
    constructor
    · have hset := countP_set_of_getElem
        (fun r => r.phase == Latentsync.JobPhase.holding) js i r
        ⟨.holding, r.acq + 1, r.rel⟩ hget
      simp only [hphase] at hset
      simp only [Latentsync.holdingCount] at hcount ⊢
      simp only [show ((Latentsync.JobPhase.notStarted ==
        Latentsync.JobPhase.holding) = false) from rfl] at hset
      simp only [show ((Latentsync.JobPhase.holding ==
        Latentsync.JobPhase.holding) = true) from rfl] at hset
      simp at hset
      omega
    · intro r' hr'
      rcases List.mem_or_eq_of_mem_set hr' with h | h
      · exact hrecs r' h
      · subst h
        refine ⟨fun h => ?_, fun _ => ?_, fun ok h => ?_⟩
        · simp at h
        · exact ⟨by simp [hzero.1], hzero.2⟩
        · simp at h
  | finish p js i r ok hget hphase =>
    have hgood := hrecs r (List.getElem?_mem hget)
    have hone : r.acq = 1 ∧ r.rel = 0 := hgood.2.1 hphase
    constructor
    · have hset := countP_set_of_getElem
        (fun r => r.phase == Latentsync.JobPhase.holding) js i r
        ⟨.finished ok, r.acq, r.rel + 1⟩ hget
      simp only [hphase] at hset
      simp only [Latentsync.holdingCount] at hcount ⊢
      simp only [show ((Latentsync.JobPhase.holding ==
        Latentsync.JobPhase.holding) = true) from rfl] at hset
      simp only [show ∀ b, ((Latentsync.JobPhase.finished b ==
        Latentsync.JobPhase.holding) = false) from fun b => rfl] at hset
      simp at hset
      omega
    · intro r' hr'
      rcases List.mem_or_eq_of_mem_set hr' with h | h
      · exact hrecs r' h
      · subst h
        refine ⟨fun h => ?_, fun h => ?_, fun ok' h => ?_⟩
        · simp at h
        · simp at h
        · exact ⟨hone.1, by simp [hone.2]⟩

/-- The pool invariant holds in every reachable configuration. -/
theorem inv_reachable {c : Latentsync.Config} (h : Latentsync.Reachable c) :
    Latentsync.Inv c := by
  induction h with
  | init n => exact inv_init n
  | step _ hs ih => exact inv_step ih hs

/-! ### Claim theorems -/

/-- Claim C1: in every reachable configuration of the latentsync worker
pool, at most 2 jobs (the configured permit count of `gpu_semaphore`) are
simultaneously inside the heavy-operation body, and every job that has
exited the body — normally or by raising — acquired its permit exactly
once and released it exactly once. -/
theorem gpu_semaphore_bound {c : Latentsync.Config}
    (h : Latentsync.Reachable c) :
    Latentsync.holdingCount c ≤ Latentsync.gpu_semaphore_permits ∧
    ∀ r ∈ c.jobs, ∀ ok, r.phase = .finished ok → r.acq = 1 ∧ r.rel = 1 := by
  have hi := inv_reachable h
  refine ⟨?_, fun r hr ok hok => (hi.2 r hr).2.2 ok hok⟩
  have := hi.1
  omega

/-- Witness for gpu_semaphore_bound: after two jobs of three acquire and
the first finishes by raising, the reachable configuration keeps the
holding count within bound. -/
theorem gpu_semaphore_bound_witness :
    Latentsync.holdingCount
      ⟨1, [⟨.finished false, 1, 1⟩, ⟨.holding, 1, 0⟩, ⟨.notStarted, 0, 0⟩]⟩
      ≤ Latentsync.gpu_semaphore_permits :=
  (gpu_semaphore_bound
    (Latentsync.Reachable.step
      (Latentsync.Reachable.step
        (Latentsync.Reachable.step (Latentsync.Reachable.init 3)
          (Latentsync.Step.acquire 1 _ 0 ⟨.notStarted, 0, 0⟩ rfl rfl))
        (Latentsync.Step.acquire 0 _ 1 ⟨.notStarted, 0, 0⟩ rfl rfl))
      (Latentsync.Step.finish 0 _ 0 ⟨.holding, 1, 0⟩ false rfl rfl))).1

/-- Claim C4: a request submitted while the engine readiness signal is not
set fails immediately with 503 and the error envelope, creating no job
and acquiring no permit, for every request body and every would-be
generation outcome. -/
theorem chat_completions_not_ready (body : Option Json)
    (gen : Except String Json) :
    Deepseek.chat_completions false body gen =
      { status := 503
        body := Deepseek.envelope
          "Model is still initializing, please try again in a few minutes"
          "server_error"
        jobsCreated := 0, permitsAcquired := 0, params := none } := by
  rfl

/-- Claim C5: every GET /health issued before the readiness signal fires
is answered 503 with body status "initializing"; every one issued at or
after the fire time is answered 200 with body status "healthy"; and the
200 answer never flaps back (the `threading.Event` is set once and never
cleared). -/
theorem health_check_readiness (fireTime t : Nat) :
    (t < fireTime → Deepseek.health_at fireTime t =
      (503, .obj [("status", .str "initializing"),
                  ("model", .str Deepseek.MODEL_ID)])) ∧
    (fireTime ≤ t → Deepseek.health_at fireTime t =
      (200, .obj [("status", .str "healthy"),
                  ("model", .str Deepseek.MODEL_ID)])) ∧
    (∀ t', t ≤ t' → (Deepseek.health_at fireTime t).1 = 200 →
      (Deepseek.health_at fireTime t').1 = 200) := by
  refine ⟨fun h => ?_, fun h => ?_, fun t' ht' h200 => ?_⟩
  · simp [Deepseek.health_at, Deepseek.engine_ready_at, Deepseek.health_check,
      Nat.not_le.mpr h]
  · simp [Deepseek.health_at, Deepseek.engine_ready_at, Deepseek.health_check, h]
  · by_cases hr : fireTime ≤ t
    · simp [Deepseek.health_at, Deepseek.engine_ready_at, Deepseek.health_check,
        le_trans hr ht']
    · simp [Deepseek.health_at, Deepseek.engine_ready_at, Deepseek.health_check,
        hr] at h200

/-- Witness for health_check_readiness at fire time 5: a request at time 3
gets 503/initializing, a request at time 7 gets 200/healthy, and a later
request at time 9 is still 200. -/
theorem health_check_readiness_witness :
    Deepseek.health_at 5 3 =
      (503, .obj [("status", .str "initializing"),
                  ("model", .str Deepseek.MODEL_ID)]) ∧
    Deepseek.health_at 5 7 =
      (200, .obj [("status", .str "healthy"),
                  ("model", .str Deepseek.MODEL_ID)]) ∧
    (Deepseek.health_at 5 9).1 = 200 :=
  ⟨(health_check_readiness 5 3).1 (by decide),
   (health_check_readiness 5 7).2.1 (by decide),
   (health_check_readiness 5 7).2.2 9 (by decide) rfl⟩

/-- Claim C6 counterexample: the code checks readiness before validating,
so a completion request with an empty `messages` list submitted while the
engine is not ready is answered 503, not the claimed 400. -/
theorem chat_completions_empty_messages_not_ready :
    (Deepseek.chat_completions false
      (some (.obj [("messages", .arr [])])) (.ok .null)).status = 503 ∧
    (503 : Nat) ≠ 400 :=
  ⟨rfl, by decide⟩

/-- Claim C6 amended: when the engine is ready, every completion request
whose `messages` list is empty or missing is rejected with status 400,
with zero jobs created and zero permits acquired (the generation call is
never reached). -/
theorem chat_completions_empty_messages (fs : List (String × Json))
    (gen : Except String Json)
    (hmsg : ((Json.obj fs).getD "messages" (.arr [])).falsy = true) :
    (Deepseek.chat_completions true (some (.obj fs)) gen).status = 400 ∧
    (Deepseek.chat_completions true (some (.obj fs)) gen).jobsCreated = 0 ∧
    (Deepseek.chat_completions true (some (.obj fs)) gen).permitsAcquired
      = 0 := by
  unfold Deepseek.chat_completions
  by_cases hf : (Json.obj fs).falsy
  · simp [hf]
  · simp [hf, hmsg]

/-- Witness for chat_completions_empty_messages: a ready-engine request
whose body is exactly the object with an empty messages list. -/
theorem chat_completions_empty_messages_witness :
    (Deepseek.chat_completions true
      (some (.obj [("messages", .arr [])])) (.ok .null)).status = 400 :=
  (chat_completions_empty_messages [("messages", .arr [])]
    (.ok .null) rfl).1

/-- Claim C10: with a non-empty `messages` list, omitting `model`,
`max_tokens`, `temperature` and `top_p` is not a validation failure: the
request proceeds to generation with the defaults "deepseek-v3", 150,
0.7 and 1.0. -/
theorem chat_completions_optional_defaults (fs : List (String × Json))
    (gen : Except String Json)
    (hmsg : ((Json.obj fs).getD "messages" (.arr [])).falsy = false)
    (hmodel : fs.lookup "model" = none)
    (hmax : fs.lookup "max_tokens" = none)
    (htemp : fs.lookup "temperature" = none)
    (htop : fs.lookup "top_p" = none) :
    (Deepseek.chat_completions true (some (.obj fs)) gen).status ≠ 400 ∧
    (Deepseek.chat_completions true (some (.obj fs)) gen).jobsCreated = 1 ∧
    (Deepseek.chat_completions true (some (.obj fs)) gen).params =
      some (.str "deepseek-v3", .num Deepseek.DEFAULT_MAX_TOKENS,
            .num (7/10), .num 1) := by
  have hf : (Json.obj fs).falsy = false := by
    cases fs with
    | nil => simp [Json.getD, Json.falsy] at hmsg
    | cons a l => simp [Json.falsy]
  unfold Deepseek.chat_completions
  simp only [Json.getD] at hmsg
  cases gen <;> simp [Json.getD, hf, hmsg, hmodel, hmax, htemp, htop]

/-- Witness for chat_completions_optional_defaults: a body carrying only a
one-element messages list produces the four default parameters. -/
theorem chat_completions_optional_defaults_witness :
    (Deepseek.chat_completions true
      (some (.obj [("messages",
        .arr [.obj [("role", .str "user"), ("content", .str "hi")]])]))
      (.ok .null)).params =
      some (.str "deepseek-v3", .num Deepseek.DEFAULT_MAX_TOKENS,
            .num (7/10), .num 1) :=
  (chat_completions_optional_defaults
    [("messages",
      .arr [.obj [("role", .str "user"), ("content", .str "hi")]])]
    (.ok .null) rfl rfl rfl rfl rfl).2.2

/-- Claim C2 (code evaluation): the latentsync cleanup callback runs
exactly once per submitted job on every path — but the zonos handler, on
a successful text-to-speech job, creates its temporary workspace file and
never releases it: zero release calls, not the claimed exactly-one. -/
theorem workspace_release_counts :
    (∀ (d : Nat) (outcome : Except String Unit) (output : List Nat)
      (sched : Bool),
      (Latentsync.sync_flow d outcome output sched).cleanupCalls = 1) ∧
    (Zonos.text_to_speech (.obj [("text", .str "hello")])
      (.ok [1, 2, 3])).tempFilesCreated = 1 ∧
    (Zonos.text_to_speech (.obj [("text", .str "hello")])
      (.ok [1, 2, 3])).tempFilesReleased = 0 :=
  ⟨fun _ _ _ _ => rfl, rfl, rfl⟩

/-- Claim C3: when the job's natural duration exceeds the 600-second
deadline, the handler answers 504 "Processing timeout" at the deadline,
not at job completion; the job is not aborted and finishes at its natural
time with its natural outcome, holding its permit until then; the
workspace cleanup runs exactly once, strictly after the response. -/
theorem sync_timeout_behaviour (d : Nat) (outcome : Except String Unit)
    (output : List Nat) (sched : Bool) (h : Latentsync.TIMEOUT < d) :
    (Latentsync.sync_flow d outcome output sched).respTime =
      Latentsync.TIMEOUT ∧
    (Latentsync.sync_flow d outcome output sched).resp =
      (504, .json (.obj [("error", .str "Processing timeout")])) ∧
    (Latentsync.sync_flow d outcome output sched).jobAborted = false ∧
    (Latentsync.sync_flow d outcome output sched).jobEnd = d ∧
    (Latentsync.sync_flow d outcome output sched).jobOutcome = outcome ∧
    (Latentsync.sync_flow d outcome output sched).cleanupCalls = 1 ∧
    (Latentsync.sync_flow d outcome output sched).cleanupTime = d ∧
    (Latentsync.sync_flow d outcome output sched).permitHeldUntil = d ∧
    (Latentsync.sync_flow d outcome output sched).respTime <
      (Latentsync.sync_flow d outcome output sched).cleanupTime := by
  have hn : ¬ d ≤ Latentsync.TIMEOUT := Nat.not_le.mpr h
  simp [Latentsync.sync_flow, hn, h]

/-- Witness for sync_timeout_behaviour at duration 601 against the
600-second deadline. -/
theorem sync_timeout_behaviour_witness :
    (Latentsync.sync_flow 601 (.ok ()) [5] false).respTime =
      Latentsync.TIMEOUT ∧
    (Latentsync.sync_flow 601 (.ok ()) [5] false).resp =
      (504, .json (.obj [("error", .str "Processing timeout")])) ∧
    (Latentsync.sync_flow 601 (.ok ()) [5] false).cleanupTime = 601 :=
  ⟨(sync_timeout_behaviour 601 (.ok ()) [5] false (by decide)).1,
   (sync_timeout_behaviour 601 (.ok ()) [5] false (by decide)).2.1,
   (sync_timeout_behaviour 601 (.ok ())
     [5] false (by decide)).2.2.2.2.2.2.1⟩

/-- Claim C7 (code evaluation): a media-sync job that succeeds within the
deadline, under the interleaving where the done callback's rmtree runs
before send_file opens the output file, is answered 500 with a
file-not-found message instead of the stand-in's payload — the output
workspace is not intact when the response is rendered. -/
theorem sync_roundtrip_race :
    (Latentsync.sync_flow 10 (.ok ()) [7, 7, 7] true).resp.1 = 500 ∧
    (Latentsync.sync_flow 10 (.ok ()) [7, 7, 7] true).resp.2 =
      .json (.obj [("error", .str Latentsync.fileGoneMessage)]) ∧
    (500 : Nat) ≠ 200 :=
  ⟨rfl, rfl, by decide⟩

/-- Claim C8: an exception raised inside a job body is captured and
rendered as a 500 execution error: the deepseek handler answers 500 with
the full envelope around the captured message, the latentsync handler
(when its wait does not time out) answers 500 with the stored message —
both handlers produce a response, and the latentsync worker still runs
its cleanup once (it is not crashed by the exception). -/
theorem job_exception_rendered (e : String) (fs : List (String × Json))
    (d : Nat) (output : List Nat) (sched : Bool)
    (hmsg : ((Json.obj fs).getD "messages" (.arr [])).falsy = false)
    (hd : d ≤ Latentsync.TIMEOUT) :
    (Deepseek.chat_completions true (some (.obj fs)) (.error e)).status
      = 500 ∧
    (Deepseek.chat_completions true (some (.obj fs)) (.error e)).body =
      Deepseek.envelope e "server_error" ∧
    (Latentsync.sync_flow d (.error e) output sched).resp =
      (500, .json (.obj [("error", .str e)])) ∧
    (Latentsync.sync_flow d (.error e) output sched).cleanupCalls = 1 := by
  have hf : (Json.obj fs).falsy = false := by
    cases fs with
    | nil => simp [Json.getD, Json.falsy] at hmsg
    | cons a l => simp [Json.falsy]
  unfold Deepseek.chat_completions
  simp only [Json.getD] at hmsg
  simp [Json.getD, hf, hmsg, Latentsync.sync_flow, hd]

/-- Witness for job_exception_rendered: a raised message "boom" on both
services at duration 10. -/
theorem job_exception_rendered_witness :
    (Deepseek.chat_completions true
      (some (.obj [("messages", .arr [.str "m"])])) (.error "boom")).status
      = 500 ∧
    (Latentsync.sync_flow 10 (.error "boom") [] false).resp =
      (500, .json (.obj [("error", .str "boom")])) :=
  ⟨(job_exception_rendered "boom" [("messages", .arr [.str "m"])]
      10 [] false rfl (by decide)).1,
   (job_exception_rendered "boom" [("messages", .arr [.str "m"])]
      10 [] false rfl (by decide)).2.2.1⟩

/-- Claim C9 counterexample: the latentsync 400 failure for a request
missing its file parts carries body with "error" bound to a plain
string, which is not the claimed envelope shape with "message" and
"type" fields. -/
theorem error_envelope_counterexample :
    Latentsync.sync_video_audio false false 0 (.ok ()) [] false =
      (400, .json (.obj
        [("error", .str "Both video and audio files are required")])) ∧
    isErrorEnvelope (.obj
      [("error", .str "Both video and audio files are required")])
      = false :=
  ⟨rfl, rfl⟩

/-- Claim C9 amended: every failure path returns a JSON object under an
"error" key, but only deepseek's 503 and 500 paths carry the full
envelope with "message" and "type"; deepseek's 400 paths carry an error
object with "message" alone, and every latentsync and zonos failure path
binds "error" to a plain string. -/
theorem error_bodies_shape :
    (∀ (ready : Bool) (body : Option Json) (gen : Except String Json),
      400 ≤ (Deepseek.chat_completions ready body gen).status →
        hasErrorMessage (Deepseek.chat_completions ready body gen).body
          = true) ∧
    (∀ (ready : Bool) (body : Option Json) (gen : Except String Json),
      (Deepseek.chat_completions ready body gen).status = 503 ∨
        (Deepseek.chat_completions ready body gen).status = 500 →
        isErrorEnvelope (Deepseek.chat_completions ready body gen).body
          = true) ∧
    (∀ (hv ha : Bool) (d : Nat) (outcome : Except String Unit)
      (output : List Nat) (sched : Bool),
      400 ≤ (Latentsync.sync_video_audio hv ha d outcome output sched).1 →
        isStringErrorBody
          (Latentsync.sync_video_audio hv ha d outcome output sched).2
          = true) ∧
    (∀ (body : Json) (gen : Except String (List Nat)),
      400 ≤ (Zonos.text_to_speech body gen).status →
        isStringErrorBody (Zonos.text_to_speech body gen).body = true) := by
  refine ⟨?_, ?_, ?_, ?_⟩
  · intro ready body gen
    cases ready with
    | false => exact fun _ => rfl
    | true =>
      cases body with
      | none => exact fun _ => rfl
      | some dd =>
        by_cases hdd : dd.falsy
        · simp [Deepseek.chat_completions, hdd, hasErrorMessage,
            Deepseek.messageOnly]
        · by_cases hm : (dd.getD "messages" (.arr [])).falsy
          · simp [Deepseek.chat_completions, hdd, hm, hasErrorMessage,
              Deepseek.messageOnly]
          · cases gen with
            | ok r => simp [Deepseek.chat_completions, hdd, hm]
            | error e =>
                simp [Deepseek.chat_completions, hdd, hm, hasErrorMessage,
                  Deepseek.envelope]
  · intro ready body gen
    cases ready with
    | false => exact fun _ => rfl
    | true =>
      cases body with
      | none => simp [Deepseek.chat_completions]
      | some dd =>
        by_cases hdd : dd.falsy
        · simp [Deepseek.chat_completions, hdd]
        · by_cases hm : (dd.getD "messages" (.arr [])).falsy
          · simp [Deepseek.chat_completions, hdd, hm]
          · cases gen with
            | ok r => simp [Deepseek.chat_completions, hdd, hm]
            | error e =>
                intro _
                simp [Deepseek.chat_completions, hdd, hm]
                rfl
  · intro hv ha d outcome output sched
    cases hv with
    | false => exact fun _ => rfl
    | true =>
      cases ha with
      | false => exact fun _ => rfl
      | true =>
        by_cases hdl : d ≤ Latentsync.TIMEOUT
        · cases outcome with
          | error e =>
              simp [Latentsync.sync_video_audio, Latentsync.sync_flow, hdl,
                isStringErrorBody]
          | ok u =>
              cases sched with
              | true =>
                  simp [Latentsync.sync_video_audio, Latentsync.sync_flow,
                    hdl, isStringErrorBody]
              | false =>
                  simp [Latentsync.sync_video_audio, Latentsync.sync_flow,
                    hdl]
        · simp [Latentsync.sync_video_audio, Latentsync.sync_flow, hdl,
            isStringErrorBody]
  · intro body gen
    cases body with
    | obj fs =>
        rcases htext : fs.lookup "text" with _ | v
        · intro _
          simp only [Zonos.text_to_speech, htext]
          rfl
        · cases v with
          | str s =>
              by_cases hst : pyStrip s = ""
              · simp [Zonos.text_to_speech, htext, hst, isStringErrorBody]
              · cases gen with
                | ok wav => simp [Zonos.text_to_speech, htext, hst]
                | error e =>
                    simp [Zonos.text_to_speech, htext, hst,
                      isStringErrorBody]
          | null => simp [Zonos.text_to_speech, htext, isStringErrorBody]
          | bool b => simp [Zonos.text_to_speech, htext, isStringErrorBody]
          | num q => simp [Zonos.text_to_speech, htext, isStringErrorBody]
          | arr xs => simp [Zonos.text_to_speech, htext, isStringErrorBody]
          | obj gs => simp [Zonos.text_to_speech, htext, isStringErrorBody]
    | null => exact fun _ => rfl
    | bool b => exact fun _ => rfl
    | num q => exact fun _ => rfl
    | str s => exact fun _ => rfl
    | arr xs => exact fun _ => rfl

/-- Witness for error_bodies_shape: one concrete failure per component —
the deepseek not-ready 503 carries a message (and the full envelope), the
latentsync missing-files 400 and the zonos blank-text 400 carry a string
error. -/
theorem error_bodies_shape_witness :
    hasErrorMessage
      (Deepseek.chat_completions false none (.ok .null)).body = true ∧
    isErrorEnvelope
      (Deepseek.chat_completions false none (.ok .null)).body = true ∧
    isStringErrorBody
      (Latentsync.sync_video_audio false false 0 (.ok ()) [] false).2
      = true ∧
    isStringErrorBody
      (Zonos.text_to_speech (.obj [("text", .str "")]) (.ok [])).body
      = true :=
  ⟨error_bodies_shape.1 false none (.ok .null) (by decide),
   error_bodies_shape.2.1 false none (.ok .null) (Or.inl rfl),
   error_bodies_shape.2.2.1 false false 0 (.ok ()) [] false (by decide),
   error_bodies_shape.2.2.2 (.obj [("text", .str "")]) (.ok [])
     (by decide)⟩
